import Mathlib

/-!
Verification of the project-path utilities (project_paths.py, pickle_handler.py).

Paths are modelled as lists of segments (`List String`); the filesystem as a
finite listing of entries, each a path together with its kind (directory or
regular file).  Python `Path.exists()` is existence of the path with any kind.
`Path.mkdir(parents=True, exist_ok=ok)` creates the directory and every missing
ancestor; with `exist_ok=True` an already existing target is a no-op, with
`exist_ok=False` it is an error.  Stateful methods take and return the
filesystem explicitly; since the Python methods never assign to `self`, each
method also returns the (unchanged) locator object, making that visible.
-/

inductive FSKind
  | dir
  | file
deriving DecidableEq, BEq

abbrev FileSystem : Type := List (List String × FSKind)

/-- Python `Path.exists()`: true when the path is present with any kind. -/
def path_exists (fs : FileSystem) (p : List String) : Bool :=
  fs.any (fun e => e.1 == p)

/-- True when the path is present as a directory (what `Path.is_dir()` would test;
the source code does NOT use this, it uses `exists()`). -/
def is_dir_at (fs : FileSystem) (p : List String) : Bool :=
  fs.any (fun e => e.1 == p && e.2 == FSKind.dir)

/-- The error message built at project_paths.py line 117-119. -/
def not_found_message (project user : String) : String :=
  "[ERROR] Project '" ++ project ++ "' not found in provided search paths for user '"
    ++ user ++ "'."

/-- `ProjectPaths._find_project_path` (project_paths.py lines 111-119): iterate the
candidate base paths in order; for each, if `base / project` exists (any kind),
return it; after exhausting all candidates, raise FileNotFoundError. -/
def find_project_path (fs : FileSystem) (project user : String) :
    List (List String) → Except String (List String)
  | [] => Except.error (not_found_message project user)
  | base :: rest =>
    if path_exists fs (base ++ [project]) then Except.ok (base ++ [project])
    else find_project_path fs project user rest

/-- The default OneDrive search paths (project_paths.py lines 103-106). -/
def default_paths (user : String) : List (List String) :=
  [["C:", "Users", user, "OneDrive - Università degli Studi di Bari (1)", "Projects"],
   ["C:", "Users", user, "OneDrive - Università degli Studi di Bari", "Projects"]]

/-- `candidate_paths = [Path(p) for p in search_paths] if search_paths else default_paths`
(project_paths.py line 109): a `None` or empty list falls back to the defaults. -/
def candidate_paths (user : String) (search_paths : Option (List (List String))) :
    List (List String) :=
  match search_paths with
  | some (p :: ps) => p :: ps
  | some [] => default_paths user
  | none => default_paths user

structure ProjectPaths where
  project : String
  user : String
  base_path : List String
  datasets_root : List String
  results_root : List String
  figures_root : List String
deriving DecidableEq

/-- `ProjectPaths.__init__` (project_paths.py lines 70-82): resolve the base path,
then derive the three root folders.  The optional `sys.path` augmentation is
interpreter-specific and not modelled. -/
def project_paths_init (project user : String)
    (search_paths : Option (List (List String))) (fs : FileSystem) :
    Except String ProjectPaths :=
  match find_project_path fs project user (candidate_paths user search_paths) with
  | Except.error e => Except.error e
  | Except.ok base =>
    Except.ok { project := project, user := user, base_path := base,
                datasets_root := base ++ ["01_Datasets"],
                results_root := base ++ ["02_Results"],
                figures_root := base ++ ["03_Figures"] }

/-- The chain of nonempty ancestors of a path, shortest first; these are the
directories `mkdir(parents=True)` makes sure exist. -/
def dir_chain (p : List String) : List (List String) :=
  (List.range p.length).map (fun i => p.take (i + 1))

/-- Create, in order, each listed directory that is missing. -/
def mkdirCreate (fs : FileSystem) : List (List String) → FileSystem
  | [] => fs
  | d :: ds =>
    mkdirCreate (if path_exists fs d then fs else fs ++ [(d, FSKind.dir)]) ds

/-- The filesystem after `p.mkdir(parents=True, exist_ok=True)`: no change when
the target already exists, otherwise every missing ancestor and the target are
created. -/
def mkdir_fn (fs : FileSystem) (p : List String) : FileSystem :=
  if path_exists fs p then fs else mkdirCreate fs (dir_chain p)

/-- Python `Path.mkdir(parents=True, exist_ok=existOk)`: FileExistsError when the
target exists and `exist_ok` is false, otherwise create what is missing. -/
def mkdir_parents (fs : FileSystem) (p : List String) (existOk : Bool) :
    Except String FileSystem :=
  if path_exists fs p then
    if existOk then Except.ok fs else Except.error "FileExistsError"
  else Except.ok (mkdirCreate fs (dir_chain p))

/-- The path built by `_get_subfolder_path` (project_paths.py lines 171-173):
`root.joinpath(*path_parts)`, then `/ subfolder` when `subfolder` is truthy. -/
def sub_path (root parts : List String) (subfolder : Option String) : List String :=
  match subfolder with
  | some s => if s == "" then root ++ parts else (root ++ parts) ++ [s]
  | none => root ++ parts

/-- `ProjectPaths._get_subfolder_path` (project_paths.py lines 145-176): build the
nested path and, when `create` is true, `mkdir(parents=True, exist_ok=True)`. -/
def get_subfolder_path (root parts : List String) (subfolder : Option String)
    (create : Bool) (fs : FileSystem) : Except String (List String × FileSystem) :=
  let path1 := sub_path root parts subfolder
  if create then
    match mkdir_parents fs path1 true with
    | Except.ok fs1 => Except.ok (path1, fs1)
    | Except.error e => Except.error e
  else Except.ok (path1, fs)

/-- The `processed` argument of `get_datasets_path`: Python `Union[bool, str]`. -/
inductive ProcessedArg
  | bool (b : Bool)
  | str (s : String)
deriving DecidableEq

/-- Python `processed == "both"`: only the exact string compares equal. -/
def ProcessedArg.isBoth : ProcessedArg → Bool
  | ProcessedArg.str s => s == "both"
  | ProcessedArg.bool _ => false

/-- Python truthiness of the `processed` argument: a bool is itself, a string is
truthy exactly when nonempty. -/
def ProcessedArg.truthy : ProcessedArg → Bool
  | ProcessedArg.bool b => b
  | ProcessedArg.str s => !(s == "")

inductive DatasetsResult
  | single (p : List String)
  | pair (raw proc : List String)
deriving DecidableEq

/-- `ProjectPaths.get_datasets_path` (project_paths.py lines 178-209): builds and
creates BOTH the raw and the processed variant, then selects what to return:
the pair when `processed == "both"`, else the processed path when `processed`
is truthy, else the raw path. -/
def get_datasets_path (pp : ProjectPaths) (path_parts : List String)
    (processed : ProcessedArg) (fs : FileSystem) :
    Except String (DatasetsResult × ProjectPaths × FileSystem) :=
  match get_subfolder_path pp.datasets_root ("raw" :: path_parts) none true fs with
  | Except.error e => Except.error e
  | Except.ok (raw_path, fs1) =>
    match get_subfolder_path pp.datasets_root ("processed" :: path_parts) none true fs1 with
    | Except.error e => Except.error e
    | Except.ok (proc_path, fs2) =>
      if ProcessedArg.isBoth processed then
        Except.ok (DatasetsResult.pair raw_path proc_path, pp, fs2)
      else
        Except.ok (DatasetsResult.single
          (if ProcessedArg.truthy processed then proc_path else raw_path), pp, fs2)

/-- `ProjectPaths.get_results_path` (project_paths.py lines 211-240): builds and
creates the base results path; when `plots` is true additionally creates and
returns the `plots` subfolder, else the second component is None. -/
def get_results_path (pp : ProjectPaths) (path_parts : List String) (plots : Bool)
    (fs : FileSystem) :
    Except String ((List String × Option (List String)) × ProjectPaths × FileSystem) :=
  match get_subfolder_path pp.results_root path_parts none true fs with
  | Except.error e => Except.error e
  | Except.ok (base, fs1) =>
    if plots then
      match get_subfolder_path base [] (some "plots") true fs1 with
      | Except.error e => Except.error e
      | Except.ok (plotsPath, fs2) => Except.ok ((base, some plotsPath), pp, fs2)
    else Except.ok ((base, none), pp, fs1)

/-- `ProjectPaths.get_figures_path` (project_paths.py lines 242-258). -/
def get_figures_path (pp : ProjectPaths) (path_parts : List String) (fs : FileSystem) :
    Except String (List String × ProjectPaths × FileSystem) :=
  match get_subfolder_path pp.figures_root path_parts none true fs with
  | Except.error e => Except.error e
  | Except.ok (path, fs1) => Except.ok (path, pp, fs1)

/-! ### Helper lemmas about the filesystem model -/

theorem path_exists_append (fs1 fs2 : FileSystem) (q : List String) :
    path_exists (fs1 ++ fs2) q = (path_exists fs1 q || path_exists fs2 q) := by
  simp [path_exists, List.any_append]

theorem path_exists_of_mem (fs : FileSystem) (p : List String) (k : FSKind)
    (h : (p, k) ∈ fs) : path_exists fs p = true := by
  rw [path_exists, List.any_eq_true]
  exact ⟨(p, k), h, by simp⟩

theorem path_exists_singleton (d : List String) (k : FSKind) (q : List String) :
    path_exists [(d, k)] q = (d == q) := by
  simp [path_exists]

theorem mkdirCreate_mono (ds : List (List String)) (fs : FileSystem) (q : List String)
    (h : path_exists fs q = true) : path_exists (mkdirCreate fs ds) q = true := by
  induction ds generalizing fs with
  | nil => simpa [mkdirCreate] using h
  | cons d ds ih =>
    rw [mkdirCreate]
    apply ih
    by_cases hd : path_exists fs d = true
    · simpa [hd] using h
    · rw [if_neg hd, path_exists_append, h]
      simp

theorem mkdirCreate_mem (ds : List (List String)) (fs : FileSystem) (d : List String)
    (h : d ∈ ds) : path_exists (mkdirCreate fs ds) d = true := by
  induction ds generalizing fs with
  | nil => cases h
  | cons a ds ih =>
    rw [mkdirCreate]
    cases h with
    | head =>
      apply mkdirCreate_mono
      by_cases ha : path_exists fs d = true
      · simp [ha]
      · rw [if_neg ha, path_exists_append, path_exists_singleton]
        simp
    | tail _ hmem => exact ih _ hmem

theorem mkdirCreate_sub (ds : List (List String)) (fs : FileSystem) (q : List String)
    (h : path_exists (mkdirCreate fs ds) q = true) :
    path_exists fs q = true ∨ q ∈ ds := by
  induction ds generalizing fs with
  | nil => exact Or.inl (by simpa [mkdirCreate] using h)
  | cons a ds ih =>
    rw [mkdirCreate] at h
    rcases ih _ h with h1 | h2
    · by_cases ha : path_exists fs a = true
      · rw [if_pos ha] at h1
        exact Or.inl h1
      · rw [if_neg ha, path_exists_append, path_exists_singleton] at h1
        rcases Bool.or_eq_true_iff.mp h1 with hx | hy
        · exact Or.inl hx
        · exact Or.inr (by simp [eq_of_beq hy])
    · exact Or.inr (List.mem_cons_of_mem _ h2)

theorem self_mem_dir_chain (p : List String) (h : p ≠ []) : p ∈ dir_chain p := by
  have hl : 0 < p.length := List.length_pos.mpr h
  refine List.mem_map.mpr ⟨p.length - 1, ?_, ?_⟩
  · exact List.mem_range.mpr (Nat.sub_lt hl Nat.one_pos)
  · rw [Nat.sub_add_cancel hl]
    exact List.take_length p

theorem mem_dir_chain_length (p q : List String) (h : q ∈ dir_chain p) :
    q.length ≤ p.length := by
  rcases List.mem_map.mp h with ⟨i, _, rfl⟩
  simp [List.length_take]

theorem mkdir_fn_nil (fs : FileSystem) : mkdir_fn fs [] = fs := by
  unfold mkdir_fn
  split
  · rfl
  · simp [dir_chain, mkdirCreate]

theorem mkdir_fn_exists (fs : FileSystem) (p : List String) (h : p ≠ []) :
    path_exists (mkdir_fn fs p) p = true := by
  unfold mkdir_fn
  by_cases hp : path_exists fs p = true
  · simp [hp]
  · rw [if_neg hp]
    exact mkdirCreate_mem _ _ _ (self_mem_dir_chain p h)

theorem mkdir_fn_mono (fs : FileSystem) (p q : List String)
    (h : path_exists fs q = true) : path_exists (mkdir_fn fs p) q = true := by
  unfold mkdir_fn
  by_cases hp : path_exists fs p = true
  · simpa [hp]
  · rw [if_neg hp]
    exact mkdirCreate_mono _ _ _ h

theorem mkdir_fn_noop (fs : FileSystem) (p : List String)
    (h : path_exists fs p = true) : mkdir_fn fs p = fs := by
  simp [mkdir_fn, h]

theorem mkdir_fn_frame (fs : FileSystem) (p q : List String)
    (h : path_exists (mkdir_fn fs p) q = true) :
    path_exists fs q = true ∨ q ∈ dir_chain p := by
  unfold mkdir_fn at h
  by_cases hp : path_exists fs p = true
  · rw [if_pos hp] at h
    exact Or.inl h
  · rw [if_neg hp] at h
    exact mkdirCreate_sub _ _ _ h

theorem mkdir_fn_no_new_longer (fs : FileSystem) (p q : List String)
    (hq : path_exists fs q = false) (hlen : p.length < q.length) :
    path_exists (mkdir_fn fs p) q = false := by
  cases hv : path_exists (mkdir_fn fs p) q with
  | false => rfl
  | true =>
    rcases mkdir_fn_frame fs p q hv with h1 | h2
    · rw [h1] at hq
      cases hq
    · have := mem_dir_chain_length p q h2
      omega

/-- Directory-creation readiness: a later `mkdir_fn` on this target is a no-op. -/
def dir_ready (fs : FileSystem) (p : List String) : Prop :=
  p = [] ∨ path_exists fs p = true

theorem mkdir_fn_noop_ready (fs : FileSystem) (p : List String)
    (h : dir_ready fs p) : mkdir_fn fs p = fs := by
  cases h with
  | inl he => rw [he, mkdir_fn_nil]
  | inr hx => exact mkdir_fn_noop fs p hx

theorem ready_self (fs : FileSystem) (p : List String) : dir_ready (mkdir_fn fs p) p := by
  by_cases h : p = []
  · exact Or.inl h
  · exact Or.inr (mkdir_fn_exists fs p h)

theorem ready_mono (fs : FileSystem) (p q : List String)
    (h : dir_ready fs p) : dir_ready (mkdir_fn fs q) p := by
  cases h with
  | inl he => exact Or.inl he
  | inr hx => exact Or.inr (mkdir_fn_mono fs q p hx)

/-! ### Normal forms of the path accessors

With `exist_ok=True` a mkdir never raises, so each accessor reduces to a pure
update of the filesystem. -/

theorem mkdir_parents_true (fs : FileSystem) (p : List String) :
    mkdir_parents fs p true = Except.ok (mkdir_fn fs p) := by
  unfold mkdir_parents mkdir_fn
  split <;> rfl

theorem gsp_eq (root parts : List String) (sub : Option String) (fs : FileSystem) :
    get_subfolder_path root parts sub true fs =
      Except.ok (sub_path root parts sub, mkdir_fn fs (sub_path root parts sub)) := by
  simp [get_subfolder_path, mkdir_parents_true]

theorem gdp_eq (pp : ProjectPaths) (parts : List String) (processed : ProcessedArg)
    (fs : FileSystem) :
    get_datasets_path pp parts processed fs =
      (if ProcessedArg.isBoth processed then
        Except.ok (DatasetsResult.pair (pp.datasets_root ++ "raw" :: parts)
            (pp.datasets_root ++ "processed" :: parts), pp,
          mkdir_fn (mkdir_fn fs (pp.datasets_root ++ "raw" :: parts))
            (pp.datasets_root ++ "processed" :: parts))
      else
        Except.ok (DatasetsResult.single
            (if ProcessedArg.truthy processed then pp.datasets_root ++ "processed" :: parts
             else pp.datasets_root ++ "raw" :: parts), pp,
          mkdir_fn (mkdir_fn fs (pp.datasets_root ++ "raw" :: parts))
            (pp.datasets_root ++ "processed" :: parts))) := by
  simp only [get_datasets_path, gsp_eq, sub_path]

theorem grp_eq (pp : ProjectPaths) (parts : List String) (plots : Bool)
    (fs : FileSystem) :
    get_results_path pp parts plots fs =
      (if plots then
        Except.ok ((pp.results_root ++ parts,
            some ((pp.results_root ++ parts) ++ ["plots"])), pp,
          mkdir_fn (mkdir_fn fs (pp.results_root ++ parts))
            ((pp.results_root ++ parts) ++ ["plots"]))
      else
        Except.ok ((pp.results_root ++ parts, none), pp,
          mkdir_fn fs (pp.results_root ++ parts))) := by
  cases plots with
  | false => simp only [get_results_path, gsp_eq, sub_path, Bool.false_eq_true, if_false]
  | true =>
    have hne : ("plots" == "") = false := by decide
    simp [get_results_path, gsp_eq, sub_path, hne]

theorem gfp_eq (pp : ProjectPaths) (parts : List String) (fs : FileSystem) :
    get_figures_path pp parts fs =
      Except.ok (pp.figures_root ++ parts, pp, mkdir_fn fs (pp.figures_root ++ parts)) := by
  simp only [get_figures_path, gsp_eq, sub_path]

/-! ### Projections on accessor results, and a substring test -/

def ret_val {A : Type} (r : Except String (A × ProjectPaths × FileSystem)) :
    Except String A :=
  match r with
  | Except.ok x => Except.ok x.1
  | Except.error e => Except.error e

def ret_self {A : Type} (r : Except String (A × ProjectPaths × FileSystem)) :
    Except String ProjectPaths :=
  match r with
  | Except.ok x => Except.ok x.2.1
  | Except.error e => Except.error e

def ret_fs {A : Type} (r : Except String (A × ProjectPaths × FileSystem)) :
    Except String FileSystem :=
  match r with
  | Except.ok x => Except.ok x.2.2
  | Except.error e => Except.error e

/-- Whether the path exists in the filesystem an accessor call left behind. -/
def exists_in (r : Except String FileSystem) (p : List String) : Bool :=
  match r with
  | Except.ok fsx => path_exists fsx p
  | Except.error _ => false

/-- The filesystem an accessor call left behind, the fallback on an error. -/
def next_fs {A : Type} (fallback : FileSystem)
    (r : Except String (A × ProjectPaths × FileSystem)) : FileSystem :=
  match r with
  | Except.ok x => x.2.2
  | Except.error _ => fallback

def is_ok {E A : Type} (r : Except E A) : Bool :=
  match r with
  | Except.ok _ => true
  | Except.error _ => false

/-- Whether the first list occurs at the head of the second. -/
def startsWithChars : List Char → List Char → Bool
  | [], _ => true
  | _ :: _, [] => false
  | a :: as, b :: bs => a == b && startsWithChars as bs

/-- Whether the first list occurs contiguously anywhere in the second. -/
def hasSubChars (needle : List Char) : List Char → Bool
  | [] => startsWithChars needle []
  | b :: bs => startsWithChars needle (b :: bs) || hasSubChars needle bs

/-- Whether `needle` occurs as a contiguous substring of `hay`. -/
def strContains (hay needle : String) : Bool :=
  hasSubChars needle.data hay.data

theorem startsWithChars_append (n post : List Char) :
    startsWithChars n (n ++ post) = true := by
  induction n with
  | nil => rfl
  | cons a as ih => simp [startsWithChars, ih]

theorem hasSubChars_of_startsWith (n l : List Char)
    (h : startsWithChars n l = true) : hasSubChars n l = true := by
  cases l with
  | nil => simpa [hasSubChars] using h
  | cons b bs => simp [hasSubChars, h]

theorem hasSubChars_append (pre n post : List Char) :
    hasSubChars n (pre ++ (n ++ post)) = true := by
  induction pre with
  | nil => exact hasSubChars_of_startsWith n (n ++ post) (startsWithChars_append n post)
  | cons a pre ih => simp [hasSubChars, ih]

theorem strContains_middle (pre mid post : String) :
    strContains (pre ++ (mid ++ post)) mid = true := by
  rw [strContains, String.data_append, String.data_append]
  exact hasSubChars_append pre.data mid.data post.data

/-! ### The pickle handler (pickle_handler.py)

`save_pickle` opens the destination with mode `'wb'` — which truncates any
existing file — and then runs `pickle.dump`; on any exception it logs a context
message and re-raises the same exception with a bare `raise`.  The two external
effects are modelled by their outcomes: `OpenOutcome` for `open(file_path, 'wb')`
and `DumpOutcome` for `pickle.dump(obj, f)` (on failure, `written` is whatever
the dump had already written to the truncated file). -/

inductive OpenOutcome
  | opened
  | failed (err : String)
deriving DecidableEq

inductive DumpOutcome
  | dumped (bytes : List Nat)
  | failed (err : String) (written : List Nat)
deriving DecidableEq

def save_ok_message (path : String) : String :=
  "[PickleHandler] Object saved to: " ++ path

def save_error_message (path err : String) : String :=
  "[PickleHandler][ERROR] Failed to save object to " ++ (path ++ (": " ++ err))

/-- `PickleHandler.save_pickle` (pickle_handler.py lines 32-61), returning the
outcome, the contents at the destination path, and the logged lines. -/
def save_pickle (openR : OpenOutcome) (dumpR : DumpOutcome) (path : String)
    (dest : Option (List Nat)) :
    Except String Unit × Option (List Nat) × List String :=
  match openR with
  | OpenOutcome.failed e => (Except.error e, dest, [save_error_message path e])
  | OpenOutcome.opened =>
    match dumpR with
    | DumpOutcome.dumped bytes => (Except.ok (), some bytes, [save_ok_message path])
    | DumpOutcome.failed e w => (Except.error e, some w, [save_error_message path e])

/-! ### Claims about the resolver -/

def fsC1 : FileSystem := [(["A", "P"], FSKind.file), (["B", "P"], FSKind.dir)]

/-- C1 counterexample: with candidates `[A], [B]`, where `A/P` is a regular file
and `B/P` is a directory, exactly one candidate has a directory child named `P`
(namely `[B]`), yet the resolver returns `A/P`, not `B/P`: the code tests
`exists()`, not directory-ness. -/
theorem resolve_dir_claim_cex :
    is_dir_at fsC1 (["A"] ++ ["P"]) = false ∧
    is_dir_at fsC1 (["B"] ++ ["P"]) = true ∧
    find_project_path fsC1 "P" "u" [["A"], ["B"]] = Except.ok ["A", "P"] ∧
    (["A", "P"] : List String) ≠ ["B", "P"] := by
  refine ⟨by decide, by decide, by rfl, by decide⟩

/-- C1 (amended): for every candidate list split as `pre ++ c :: post` where no
entry of `pre` has an existing child named `project` and `c` does (of any kind:
the code tests `exists()`, not directory-ness), the resolver returns
`c/project`, for any position of `c` and for an arbitrary suffix `post` — the
candidates after the first match are never examined. -/
theorem resolve_first_existing_match (fs : FileSystem) (project user : String)
    (pre post : List (List String)) (c : List String)
    (hpre : ∀ b ∈ pre, path_exists fs (b ++ [project]) = false)
    (hc : path_exists fs (c ++ [project]) = true) :
    find_project_path fs project user (pre ++ c :: post) = Except.ok (c ++ [project]) := by
  induction pre with
  | nil => simp [find_project_path, hc]
  | cons b pre ih =>
    have hb := hpre b (by simp)
    rw [List.cons_append, find_project_path, hb]
    simp only [Bool.false_eq_true, if_false]
    exact ih (fun x hx => hpre x (List.mem_cons_of_mem b hx))

def fsW1 : FileSystem := [(["B", "P"], FSKind.dir)]

/-- Witness for C1 (amended) at a concrete input: only `B/P` exists, in second
position with a trailing unexamined candidate. -/
theorem resolve_first_existing_match_wit :
    find_project_path fsW1 "P" "u" [["A"], ["B"], ["Z"]] = Except.ok (["B"] ++ ["P"]) :=
  resolve_first_existing_match fsW1 "P" "u" [["A"]] [["Z"]] ["B"] (by decide) (by decide)

/-- C2 counterexample: when nothing matches, the raised message does not contain
the attempted search location (here the candidate directory `SearchLoc`). -/
theorem resolve_message_locations_cex :
    find_project_path [] "P" "u" [["SearchLoc"]] =
      Except.error (not_found_message "P" "u") ∧
    strContains (not_found_message "P" "u") "SearchLoc" = false := by
  refine ⟨by rfl, by decide⟩

/-- C2 (amended): when no candidate has a child named `project`, the resolver
fails — only after exhausting every candidate — with the FileNotFoundError
message, which contains the project name and the user name; the message is
independent of the candidate list, so it does not list the attempted search
locations. -/
theorem resolve_not_found (fs : FileSystem) (project user : String)
    (cs : List (List String))
    (h : ∀ b ∈ cs, path_exists fs (b ++ [project]) = false) :
    find_project_path fs project user cs = Except.error (not_found_message project user) ∧
    strContains (not_found_message project user) project = true ∧
    strContains (not_found_message project user) user = true := by
  refine ⟨?_, ?_, ?_⟩
  · induction cs with
    | nil => rfl
    | cons b cs ih =>
      have hb := h b (by simp)
      rw [find_project_path, hb]
      simp only [Bool.false_eq_true, if_false]
      exact ih (fun x hx => h x (List.mem_cons_of_mem b hx))
  · have e1 : not_found_message project user =
        "[ERROR] Project '" ++ (project ++
          ("' not found in provided search paths for user '" ++ (user ++ "'."))) := by
      simp [not_found_message, String.append_assoc]
    rw [e1]
    exact strContains_middle _ _ _
  · have e2 : not_found_message project user =
        ("[ERROR] Project '" ++ project ++
          "' not found in provided search paths for user '") ++ (user ++ "'.") := by
      simp [not_found_message, String.append_assoc]
    rw [e2]
    exact strContains_middle _ _ _

/-- Witness for C2 (amended) at a concrete input. -/
theorem resolve_not_found_wit :
    find_project_path [] "P" "u" [["A"]] = Except.error (not_found_message "P" "u") ∧
    strContains (not_found_message "P" "u") "P" = true ∧
    strContains (not_found_message "P" "u") "u" = true :=
  resolve_not_found [] "P" "u" [["A"]] (by decide)

def fsC7 : FileSystem := [(["A", "P"], FSKind.file)]

/-- C7 counterexample: the only candidate has a child `P` that is a regular
file, not a directory, and the resolver still returns it as the project root. -/
theorem resolve_file_child_cex :
    is_dir_at fsC7 (["A"] ++ ["P"]) = false ∧
    find_project_path fsC7 "P" "u" [["A"]] = Except.ok ["A", "P"] := by
  refine ⟨by decide, by rfl⟩

/-- C7 (amended): a candidate matches as soon as `candidate/project` exists with
any kind; in particular a candidate whose child named `project` is a regular
file is returned as the resolved root. -/
theorem resolve_matches_file_child (fs : FileSystem) (project user : String)
    (c : List String) (rest : List (List String))
    (h : (c ++ [project], FSKind.file) ∈ fs) :
    find_project_path fs project user (c :: rest) = Except.ok (c ++ [project]) := by
  rw [find_project_path, path_exists_of_mem fs (c ++ [project]) FSKind.file h]
  simp

def fsW7 : FileSystem := [(["C", "Q"], FSKind.file)]

/-- Witness for C7 (amended) at a concrete input. -/
theorem resolve_matches_file_child_wit :
    find_project_path fsW7 "Q" "u" [["C"]] = Except.ok (["C"] ++ ["Q"]) :=
  resolve_matches_file_child fsW7 "Q" "u" ["C"] [] (by simp [fsW7])

/-! ### Claims about the path accessors -/

/-- C3: for every subpath, `get_datasets_path` returns
`datasetsRoot/raw/parts` with `processed=False` and
`datasetsRoot/processed/parts` with `processed=True` — the two paths differ
only in the raw/processed segment — and with `processed="both"` it returns
exactly these two paths as a pair, raw first. -/
theorem datasets_raw_processed_paths (pp : ProjectPaths) (parts : List String)
    (fs : FileSystem) :
    ret_val (get_datasets_path pp parts (ProcessedArg.bool false) fs) =
      Except.ok (DatasetsResult.single (pp.datasets_root ++ "raw" :: parts)) ∧
    ret_val (get_datasets_path pp parts (ProcessedArg.bool true) fs) =
      Except.ok (DatasetsResult.single (pp.datasets_root ++ "processed" :: parts)) ∧
    ret_val (get_datasets_path pp parts (ProcessedArg.str "both") fs) =
      Except.ok (DatasetsResult.pair (pp.datasets_root ++ "raw" :: parts)
        (pp.datasets_root ++ "processed" :: parts)) := by
  refine ⟨?_, ?_, ?_⟩ <;>
    simp [gdp_eq, ret_val, ProcessedArg.isBoth, ProcessedArg.truthy]

/-- C10: `get_datasets_path` returns a pair exactly when `processed` is the
string `"both"`; any other truthy value (any bool `True`, any other nonempty
string) selects the single processed path, any falsy value the raw path. -/
theorem datasets_mode_selection (pp : ProjectPaths) (parts : List String)
    (processed : ProcessedArg) (fs : FileSystem) :
    ret_val (get_datasets_path pp parts processed fs) =
      Except.ok (if ProcessedArg.isBoth processed then
          DatasetsResult.pair (pp.datasets_root ++ "raw" :: parts)
            (pp.datasets_root ++ "processed" :: parts)
        else DatasetsResult.single
          (if ProcessedArg.truthy processed then pp.datasets_root ++ "processed" :: parts
           else pp.datasets_root ++ "raw" :: parts)) ∧
    (ProcessedArg.isBoth processed = true ↔ processed = ProcessedArg.str "both") ∧
    ProcessedArg.truthy (ProcessedArg.str "raw") = true ∧
    ProcessedArg.isBoth (ProcessedArg.str "raw") = false := by
  refine ⟨?_, ?_, by decide, by decide⟩
  · rw [gdp_eq]
    by_cases hb : ProcessedArg.isBoth processed = true <;> simp [hb, ret_val]
  · cases processed with
    | bool b => simp [ProcessedArg.isBoth]
    | str s => simp [ProcessedArg.isBoth]

def ppC6 : ProjectPaths :=
  { project := "P", user := "u", base_path := ["r"],
    datasets_root := ["r", "01_Datasets"], results_root := ["r", "02_Results"],
    figures_root := ["r", "03_Figures"] }

/-- C6 counterexample: a call with `processed=False` on an empty filesystem
returns only the raw path, yet it also creates the processed directory —
the code builds (and thereby creates) both variants on every call. -/
theorem datasets_raw_only_creation_cex :
    ret_val (get_datasets_path ppC6 [] (ProcessedArg.bool false) []) =
      Except.ok (DatasetsResult.single ["r", "01_Datasets", "raw"]) ∧
    exists_in (ret_fs (get_datasets_path ppC6 [] (ProcessedArg.bool false) []))
      ["r", "01_Datasets", "processed"] = true := by
  refine ⟨by rfl, by rfl⟩

/-- C6 (amended): every `get_datasets_path` call creates BOTH the raw and the
processed directory trees, whatever the mode; the mode only selects which
path(s) are returned. -/
theorem datasets_creates_both_trees (pp : ProjectPaths) (parts : List String)
    (processed : ProcessedArg) (fs : FileSystem) :
    exists_in (ret_fs (get_datasets_path pp parts processed fs))
      (pp.datasets_root ++ "raw" :: parts) = true ∧
    exists_in (ret_fs (get_datasets_path pp parts processed fs))
      (pp.datasets_root ++ "processed" :: parts) = true := by
  have hR : pp.datasets_root ++ "raw" :: parts ≠ [] := by simp
  have hP : pp.datasets_root ++ "processed" :: parts ≠ [] := by simp
  have h1 : path_exists
      (mkdir_fn (mkdir_fn fs (pp.datasets_root ++ "raw" :: parts))
        (pp.datasets_root ++ "processed" :: parts))
      (pp.datasets_root ++ "raw" :: parts) = true :=
    mkdir_fn_mono _ _ _ (mkdir_fn_exists fs _ hR)
  have h2 : path_exists
      (mkdir_fn (mkdir_fn fs (pp.datasets_root ++ "raw" :: parts))
        (pp.datasets_root ++ "processed" :: parts))
      (pp.datasets_root ++ "processed" :: parts) = true :=
    mkdir_fn_exists _ _ hP
  rw [gdp_eq]
  by_cases hb : ProcessedArg.isBoth processed = true <;>
    simp [hb, ret_fs, exists_in, h1, h2]

/-- C4: each accessor succeeds, and repeating it with identical arguments on
the filesystem left by the first call returns exactly the same value and the
same filesystem — re-creating already-existing directories neither raises nor
changes anything. -/
theorem get_paths_idempotent (pp : ProjectPaths) (parts : List String)
    (processed : ProcessedArg) (plots : Bool) (fs : FileSystem) :
    is_ok (get_datasets_path pp parts processed fs) = true ∧
    get_datasets_path pp parts processed
        (next_fs fs (get_datasets_path pp parts processed fs)) =
      get_datasets_path pp parts processed fs ∧
    is_ok (get_results_path pp parts plots fs) = true ∧
    get_results_path pp parts plots (next_fs fs (get_results_path pp parts plots fs)) =
      get_results_path pp parts plots fs ∧
    is_ok (get_figures_path pp parts fs) = true ∧
    get_figures_path pp parts (next_fs fs (get_figures_path pp parts fs)) =
      get_figures_path pp parts fs := by
  have key2 : ∀ (g : FileSystem) (R P : List String),
      mkdir_fn (mkdir_fn (mkdir_fn (mkdir_fn g R) P) R) P = mkdir_fn (mkdir_fn g R) P := by
    intro g R P
    rw [mkdir_fn_noop_ready _ _ (ready_mono _ _ _ (ready_self g R)),
      mkdir_fn_noop_ready _ _ (ready_self (mkdir_fn g R) P)]
  have key1 : ∀ (g : FileSystem) (R : List String),
      mkdir_fn (mkdir_fn g R) R = mkdir_fn g R := by
    intro g R
    exact mkdir_fn_noop_ready _ _ (ready_self g R)
  refine ⟨?_, ?_, ?_, ?_, ?_, ?_⟩
  · rw [gdp_eq]
    by_cases hb : ProcessedArg.isBoth processed = true <;> simp [hb, is_ok]
  · simp only [gdp_eq]
    by_cases hb : ProcessedArg.isBoth processed = true <;>
      simp [hb, next_fs, key2]
  · rw [grp_eq]
    cases plots <;> simp [is_ok]
  · simp only [grp_eq]
    cases plots <;> simp [next_fs, key1, key2]
  · rw [gfp_eq]
    simp [is_ok]
  · simp only [gfp_eq]
    simp [next_fs, key1]

def ppW5 : ProjectPaths :=
  { project := "P", user := "u", base_path := ["b"],
    datasets_root := ["b", "01_Datasets"], results_root := ["b", "02_Results"],
    figures_root := ["b", "03_Figures"] }

/-- C5: with `plots=True`, `get_results_path` returns the base path paired with
the base path joined with `plots`, and both directories exist afterwards; with
`plots=False` the second component is `None` and (when it did not already
exist) no `plots` child of the base is created. -/
theorem results_plots_pair (pp : ProjectPaths) (parts : List String) (fs : FileSystem)
    (h : path_exists fs ((pp.results_root ++ parts) ++ ["plots"]) = false) :
    ret_val (get_results_path pp parts true fs) =
      Except.ok (pp.results_root ++ parts, some ((pp.results_root ++ parts) ++ ["plots"])) ∧
    exists_in (ret_fs (get_results_path pp parts true fs))
      ((pp.results_root ++ parts) ++ ["plots"]) = true ∧
    (pp.results_root ++ parts = [] ∨
      exists_in (ret_fs (get_results_path pp parts true fs))
        (pp.results_root ++ parts) = true) ∧
    ret_val (get_results_path pp parts false fs) =
      Except.ok (pp.results_root ++ parts, none) ∧
    exists_in (ret_fs (get_results_path pp parts false fs))
      ((pp.results_root ++ parts) ++ ["plots"]) = false := by
  have hPL : (pp.results_root ++ parts) ++ ["plots"] ≠ [] := by simp
  refine ⟨?_, ?_, ?_, ?_, ?_⟩
  · rw [grp_eq]
    simp [ret_val]
  · rw [grp_eq]
    simp only [if_true, ret_fs, exists_in]
    exact mkdir_fn_exists _ _ hPL
  · by_cases hB : pp.results_root ++ parts = []
    · exact Or.inl hB
    · refine Or.inr ?_
      rw [grp_eq]
      simp only [if_true, ret_fs, exists_in]
      exact mkdir_fn_mono _ _ _ (mkdir_fn_exists fs _ hB)
  · rw [grp_eq]
    simp [ret_val]
  · rw [grp_eq]
    simp only [Bool.false_eq_true, if_false, ret_fs, exists_in]
    apply mkdir_fn_no_new_longer fs _ _ h
    simp

/-- Witness for C5 at a concrete input. -/
theorem results_plots_pair_wit :
    ret_val (get_results_path ppW5 ["x"] true []) =
      Except.ok (ppW5.results_root ++ ["x"], some ((ppW5.results_root ++ ["x"]) ++ ["plots"])) ∧
    exists_in (ret_fs (get_results_path ppW5 ["x"] true []))
      ((ppW5.results_root ++ ["x"]) ++ ["plots"]) = true ∧
    (ppW5.results_root ++ ["x"] = [] ∨
      exists_in (ret_fs (get_results_path ppW5 ["x"] true []))
        (ppW5.results_root ++ ["x"]) = true) ∧
    ret_val (get_results_path ppW5 ["x"] false []) =
      Except.ok (ppW5.results_root ++ ["x"], none) ∧
    exists_in (ret_fs (get_results_path ppW5 ["x"] false []))
      ((ppW5.results_root ++ ["x"]) ++ ["plots"]) = false :=
  results_plots_pair ppW5 ["x"] [] (by rfl)

/-! ### Claims about the pickle handler and the locator invariants -/

/-- C8 counterexample: `save_pickle` opens the destination with mode `'wb'`,
which truncates it, before serializing; when the dump then fails (here having
written nothing), the destination no longer holds its previous contents — a
truncated file is left behind on error. -/
theorem save_pickle_truncation_cex :
    (save_pickle OpenOutcome.opened (DumpOutcome.failed "PicklingError" [])
      "out.pkl" (some [7, 7, 7])).2.1 = some [] ∧
    some ([] : List Nat) ≠ some [7, 7, 7] := by
  refine ⟨by rfl, by decide⟩

/-- C8 (amended): when the dump fails, `save_pickle` logs a single context line
that contains both the destination path and the triggering error text, and
re-raises that error unchanged (a bare `raise`); however the destination is
left holding whatever the failed dump wrote into the freshly truncated file,
not its previous contents. -/
theorem save_pickle_error_reraise (e path : String) (w : List Nat)
    (dest : Option (List Nat)) :
    save_pickle OpenOutcome.opened (DumpOutcome.failed e w) path dest =
      (Except.error e, some w, [save_error_message path e]) ∧
    strContains (save_error_message path e) e = true ∧
    strContains (save_error_message path e) path = true := by
  refine ⟨rfl, ?_, ?_⟩
  · have e1 : save_error_message path e =
        ("[PickleHandler][ERROR] Failed to save object to " ++ (path ++ ": ")) ++
          (e ++ "") := by
      simp [save_error_message, String.append_assoc, String.append_empty]
    rw [e1]
    exact strContains_middle _ _ _
  · exact strContains_middle _ _ _

def fsW9 : FileSystem := [(["A", "P"], FSKind.dir)]

def ppW9 : ProjectPaths :=
  { project := "P", user := "u", base_path := ["A", "P"],
    datasets_root := ["A", "P", "01_Datasets"],
    results_root := ["A", "P", "02_Results"],
    figures_root := ["A", "P", "03_Figures"] }

/-- C9: a successfully constructed locator carries the project name, its three
derived roots always equal the resolved base joined with `01_Datasets`,
`02_Results`, `03_Figures`, and every accessor returns the locator unchanged —
the fields are never modified after construction. -/
theorem project_paths_roots_immutable (project user : String)
    (sp : Option (List (List String))) (fs fs0 : FileSystem) (parts : List String)
    (processed : ProcessedArg) (plots : Bool) (pp : ProjectPaths)
    (h : project_paths_init project user sp fs = Except.ok pp) :
    pp.project = project ∧ pp.user = user ∧
    pp.datasets_root = pp.base_path ++ ["01_Datasets"] ∧
    pp.results_root = pp.base_path ++ ["02_Results"] ∧
    pp.figures_root = pp.base_path ++ ["03_Figures"] ∧
    ret_self (get_datasets_path pp parts processed fs0) = Except.ok pp ∧
    ret_self (get_results_path pp parts plots fs0) = Except.ok pp ∧
    ret_self (get_figures_path pp parts fs0) = Except.ok pp := by
  unfold project_paths_init at h
  cases hf : find_project_path fs project user (candidate_paths user sp) with
  | error e =>
    rw [hf] at h
    cases h
  | ok base =>
    rw [hf] at h
    have h2 : ProjectPaths.mk project user base (base ++ ["01_Datasets"])
        (base ++ ["02_Results"]) (base ++ ["03_Figures"]) = pp := by
      cases h
      rfl
    subst h2
    refine ⟨rfl, rfl, rfl, rfl, rfl, ?_, ?_, ?_⟩
    · rw [gdp_eq]
      by_cases hb : ProcessedArg.isBoth processed = true <;> simp [hb, ret_self]
    · rw [grp_eq]
      cases plots <;> simp [ret_self]
    · rw [gfp_eq]
      simp [ret_self]

/-- Witness for C9 at a concrete input. -/
theorem project_paths_roots_immutable_wit :
    ppW9.project = "P" ∧ ppW9.user = "u" ∧
    ppW9.datasets_root = ppW9.base_path ++ ["01_Datasets"] ∧
    ppW9.results_root = ppW9.base_path ++ ["02_Results"] ∧
    ppW9.figures_root = ppW9.base_path ++ ["03_Figures"] ∧
    ret_self (get_datasets_path ppW9 [] (ProcessedArg.bool false) []) = Except.ok ppW9 ∧
    ret_self (get_results_path ppW9 [] false []) = Except.ok ppW9 ∧
    ret_self (get_figures_path ppW9 [] []) = Except.ok ppW9 :=
  project_paths_roots_immutable "P" "u" (some [["A"]]) fsW9 [] []
    (ProcessedArg.bool false) false ppW9 (by rfl)
